import Mathlib

/-!
Shallow embedding of `src/jenkins_agent.py` (PolicyStat/jenkins-agent).

The program is sequential HTTP glue: network I/O is modelled by passing the
responses each call would observe as explicit parameters, and the requests a
run issues are collected into a trace (`List Action`).  Python exceptions are
modelled with `Except PyError`; Python `str.split`, `str.strip` and the
`requests` library's `raise_for_status` are re-implemented from their
documented semantics (`raise_for_status` raises exactly for 4xx/5xx codes).
-/

deriving instance DecidableEq for Except

namespace JenkinsAgent

/-- Python exception classes that the program can raise, collapsed to the
granularity the claims need. -/
inductive PyError where
  /-- `requests.exceptions.HTTPError`, carrying the offending status code. -/
  | httpError (status : Nat)
  /-- `ValueError`, e.g. from unpacking `str.split` into two names. -/
  | valueError
  /-- `response.json()` failing on a body that is not valid JSON. -/
  | jsonDecodeError
  /-- `xml.etree.ElementTree.fromstring` failing on an invalid document. -/
  | xmlParseError
  /-- `AttributeError`, e.g. calling a method on `None`. -/
  | attributeError
deriving DecidableEq, Repr

/-- The HTTP requests / external process invocations a run can issue, in the
order they are appended to the trace. -/
inductive Action where
  | wgetJar
  | nodeListGet
  | createPost
  | configPost
  | jnlpGet
  | deletePost
  | launchAgent
deriving DecidableEq, Repr

/-- `requests.Response.raise_for_status`: raises `HTTPError` exactly when the
status code is a 4xx client error or a 5xx server error, otherwise a no-op. -/
def isErrorStatus (status : Nat) : Bool :=
  (400 ≤ status && status < 500) || (500 ≤ status && status < 600)

def raise_for_status (status : Nat) : Except PyError Unit :=
  if isErrorStatus status then .error (.httpError status) else .ok ()

/-- Python `str.split(sep)` for a single-character separator, on the
character list of the string: splits at every occurrence, keeping empty
pieces, and yields `[[]]` on the empty string (as `''.split(':') == ['']`). -/
def pySplitChar (c : Char) : List Char → List (List Char)
  | [] => [[]]
  | x :: xs =>
    if x = c then [] :: pySplitChar c xs
    else
      match pySplitChar c xs with
      | [] => [[x]]
      | r :: rs => (x :: r) :: rs

/-- Python `s.split(c)` on Lean strings. -/
def pySplit (c : Char) (s : String) : List String :=
  (pySplitChar c s.toList).map String.mk

/-- Python `s.strip(c)` for a single strip character: removes every leading
and every trailing occurrence of `c`. -/
def pyStrip (c : Char) (s : String) : String :=
  String.mk (((s.toList.dropWhile (· = c)).reverse.dropWhile (· = c)).reverse)

/-- The authenticated `requests.Session`; only the auth pair matters here. -/
structure Session where
  username : String
  password : String
deriving DecidableEq, Repr

/-- `get_credentialed_session`: `username, password = credentials.split(':')`
raises `ValueError` unless the split yields exactly two pieces. -/
def get_credentialed_session (credentials : String) : Except PyError Session :=
  match pySplit ':' credentials with
  | [username, password] => .ok ⟨username, password⟩
  | _ => .error .valueError

/-- An HTTP response with a decoded text body. -/
structure Response where
  status_code : Nat
  body : String
deriving DecidableEq, Repr

/-- `load_instance_metadata_item`: returns the decoded body on 200; otherwise
calls `raise_for_status`, which raises only for 4xx/5xx — on any other
non-200 status the function falls through and returns `None`. -/
def load_instance_metadata_item (r : Response) : Except PyError (Option String) :=
  if r.status_code = 200 then .ok (some r.body)
  else
    match raise_for_status r.status_code with
    | .error e => .error e
    | .ok () => .ok none

/-- The four metadata responses `load_instance_metadata` fetches, in order. -/
structure MetadataResponses where
  name : Response
  jenkins_url : Response
  jnlp_credentials : Response
  jenkins_label : Response
deriving DecidableEq, Repr

/-- The `instance_data` dict built by `load_instance_metadata`.  Fields other
than `jenkins_url` may be `none` (a non-200 non-error metadata response makes
the item loader return `None`); `jenkins_url` must be a string because
`.strip('/')` is called on it. -/
structure InstanceData where
  jenkins_url : String
  name : Option String
  jnlp_credentials : Option String
  jenkins_label : Option String
deriving DecidableEq, Repr

/-- `load_instance_metadata`: loads the four items in program order
(short-circuiting on the first raised error), then builds the dict with
`jenkins_url.strip('/')`; calling `.strip` on `None` raises. -/
def load_instance_metadata (rs : MetadataResponses) : Except PyError InstanceData := do
  let node_name ← load_instance_metadata_item rs.name
  let jenkins_url ← load_instance_metadata_item rs.jenkins_url
  let jnlp_credentials ← load_instance_metadata_item rs.jnlp_credentials
  let jenkins_label ← load_instance_metadata_item rs.jenkins_label
  match jenkins_url with
  | none => .error .attributeError
  | some ju =>
    .ok { jenkins_url := pyStrip '/' ju
          name := node_name
          jnlp_credentials := jnlp_credentials
          jenkins_label := jenkins_label }

/-- One entry of the node-list JSON's `computer` array; `displayName` is
`none` when the key is absent (`computer.get('displayName')` then yields
`None`, which never equals a queried string). -/
structure Computer where
  displayName : Option String
deriving DecidableEq, Repr

/-- The parsed node-list JSON object; `computer := none` models a document
without the `"computer"` key, for which `dict.get('computer', [])` supplies
the empty list. -/
structure NodeListJson where
  computer : Option (List Computer)
deriving DecidableEq, Repr

/-- The response of the node-list endpoint; `json := none` models a body
`response.json()` rejects. -/
structure NodeListResponse where
  status_code : Nat
  json : Option NodeListJson
deriving DecidableEq, Repr

/-- `_is_already_registered`: on a non-200 status, `raise_for_status` (which
only raises for 4xx/5xx; other statuses fall through to the JSON parse);
then scans `node_list.get('computer', [])` for an entry whose `displayName`
equals the queried name, returning at the first match. -/
def _is_already_registered (name : Option String) (r : NodeListResponse) :
    Except PyError Bool := do
  if r.status_code ≠ 200 then
    raise_for_status r.status_code
  match r.json with
  | none => .error .jsonDecodeError
  | some node_list =>
    .ok ((node_list.computer.getD []).any (fun c => c.displayName == name))

/-- The two coordinator responses `_do_registration` observes, in order. -/
structure RegistrationEnv where
  create_status : Nat
  config_status : Nat
deriving DecidableEq, Repr

/-- `_do_registration`: posts the create request; on a non-302 status logs
critically and calls `raise_for_status` (raising only for 4xx/5xx); when no
error is raised, posts the `config.xml` update and applies the same non-200
check to its status.  The trace records the requests actually issued. -/
def _do_registration (env : RegistrationEnv) : Except PyError Unit × List Action :=
  match (if env.create_status ≠ 302 then raise_for_status env.create_status else .ok ()) with
  | .error e => (.error e, [.createPost])
  | .ok () =>
    ((if env.config_status ≠ 200 then raise_for_status env.config_status else .ok ()),
     [.createPost, .configPost])

/-- The responses a `_deregister_with_jenkins_master` call observes: the
delete request's status, and the node-list response the existence re-check
would see. -/
structure DeregEnv where
  delete_status : Nat
  recheck : NodeListResponse
deriving DecidableEq, Repr

/-- `_deregister_with_jenkins_master`: builds the session (which may raise
before any request), posts the delete; a 302 status logs success and
returns; otherwise re-runs the existence check — if the node is absent
returns, else calls `raise_for_status` on the original delete status. -/
def _deregister_with_jenkins_master (credentials : String) (name : Option String)
    (env : DeregEnv) : Except PyError Unit × List Action :=
  match get_credentialed_session credentials with
  | .error e => (.error e, [])
  | .ok _sess =>
    if env.delete_status = 302 then (.ok (), [.deletePost])
    else
      match _is_already_registered name env.recheck with
      | .error e => (.error e, [.deletePost, .nodeListGet])
      | .ok false => (.ok (), [.deletePost, .nodeListGet])
      | .ok true => (raise_for_status env.delete_status, [.deletePost, .nodeListGet])

/-- An XML element as `xml.etree.ElementTree` exposes it: a tag, optional
text content, and a list of child elements. -/
inductive XmlElem where
  | elem (tag : String) (text : Option String) (children : List XmlElem)

def XmlElem.tag : XmlElem → String
  | .elem t _ _ => t

def XmlElem.text : XmlElem → Option String
  | .elem _ x _ => x

def XmlElem.children : XmlElem → List XmlElem
  | .elem _ _ c => c

/-- `Element.find(tag)`: the first direct child with the given tag, or
`None`. -/
def XmlElem.find (e : XmlElem) (t : String) : Option XmlElem :=
  e.children.find? (fun c => c.tag == t)

/-- The response of the per-node JNLP endpoint; `xml := none` models a body
`ET.fromstring` rejects. -/
structure JnlpResponse where
  status_code : Nat
  xml : Option XmlElem

/-- `_get_jnlp_secret`: non-200 goes through `raise_for_status` (4xx/5xx
raise; other statuses fall through), then the body is parsed and
`root.find('application-desc').find('argument').text` is taken — each `find`
returning `None` makes the attribute access on `None` raise. -/
def _get_jnlp_secret (r : JnlpResponse) : Except PyError (Option String) := do
  if r.status_code ≠ 200 then
    raise_for_status r.status_code
  match r.xml with
  | none => .error .xmlParseError
  | some root =>
    match root.find "application-desc" with
    | none => .error .attributeError
    | some ad =>
      match ad.find "argument" with
      | none => .error .attributeError
      | some arg => .ok arg.text

/-- Everything a `handle_start` run observes from outside, in program
order. -/
structure StartEnv where
  metadata : MetadataResponses
  /-- `os.path.exists(JENKINS_AGENT_JAR_LOCAL_PATH)` -/
  agent_jar_exists : Bool
  node_list : NodeListResponse
  registration : RegistrationEnv
  jnlp : JnlpResponse

/-- The tail of `handle_start` after the registration branch: fetch the JNLP
secret and, on success, launch the agent process. -/
def startFinish (env : StartEnv) (acts : List Action) : Except PyError Unit × List Action :=
  match _get_jnlp_secret env.jnlp with
  | .error e => (.error e, acts ++ [.jnlpGet])
  | .ok _secret => (.ok (), acts ++ [.jnlpGet, .launchAgent])

/-- The conditional jar fetch at the top of `handle_start`: a `wget` is run
only when the jar is not already at its fixed local path. -/
def jarActions (env : StartEnv) : List Action :=
  if env.agent_jar_exists then [] else [.wgetJar]

/-- `handle_start`: load metadata, conditionally wget the agent jar, build
the session (`None` credentials raise on `.split`), then create-and-configure
only when the existence check is false, then fetch the secret and launch. -/
def handle_start (env : StartEnv) : Except PyError Unit × List Action :=
  match load_instance_metadata env.metadata with
  | .error e => (.error e, [])
  | .ok data =>
    match data.jnlp_credentials with
    | none => (.error .attributeError, jarActions env)
    | some creds =>
      match get_credentialed_session creds with
      | .error e => (.error e, jarActions env)
      | .ok _sess =>
        match _is_already_registered data.name env.node_list with
        | .error e => (.error e, jarActions env ++ [.nodeListGet])
        | .ok true => startFinish env (jarActions env ++ [.nodeListGet])
        | .ok false =>
          match _do_registration env.registration with
          | (.error e, regActs) => (.error e, jarActions env ++ [.nodeListGet] ++ regActs)
          | (.ok (), regActs) => startFinish env (jarActions env ++ [.nodeListGet] ++ regActs)

/-- Everything a `handle_shutdown` run observes from outside. -/
structure ShutdownEnv where
  metadata : MetadataResponses
  dereg : DeregEnv

/-- `handle_shutdown`: load metadata, then deregister. -/
def handle_shutdown (env : ShutdownEnv) : Except PyError Unit × List Action :=
  match load_instance_metadata env.metadata with
  | .error e => (.error e, [])
  | .ok data =>
    match data.jnlp_credentials with
    | none => (.error .attributeError, [])
    | some creds => _deregister_with_jenkins_master creds data.name env.dereg

/-- All four metadata fetches answered 200. -/
def validMetadata (rs : MetadataResponses) : Prop :=
  rs.name.status_code = 200 ∧ rs.jenkins_url.status_code = 200 ∧
    rs.jnlp_credentials.status_code = 200 ∧ rs.jenkins_label.status_code = 200

instance (rs : MetadataResponses) : Decidable (validMetadata rs) := by
  unfold validMetadata; infer_instance

/-! ### Helper lemmas -/

theorem head?_dropWhile_eq_some {α} (p : α → Bool) (l : List α) (a : α)
    (h : (l.dropWhile p).head? = some a) : p a = false := by
  induction l with
  | nil => simp [List.dropWhile] at h
  | cons x xs ih =>
    rw [List.dropWhile_cons] at h
    by_cases hx : p x = true
    · rw [if_pos hx] at h
      exact ih h
    · rw [if_neg hx] at h
      simp only [List.head?_cons, Option.some.injEq] at h
      subst h
      simpa using hx

theorem getLast?_dropWhile_of_ne_nil {α} (p : α → Bool) (l : List α)
    (h : l.dropWhile p ≠ []) : (l.dropWhile p).getLast? = l.getLast? := by
  induction l with
  | nil => simp [List.dropWhile] at h
  | cons x xs ih =>
    rw [List.dropWhile_cons]
    rw [List.dropWhile_cons] at h
    by_cases hx : p x = true
    · rw [if_pos hx] at h ⊢
      rw [ih h]
      rcases xs with _ | ⟨y, ys⟩
      · simp [List.dropWhile] at h
      · simp [List.getLast?_cons_cons]
    · rw [if_neg hx]

theorem toList_pyStrip (c : Char) (s : String) :
    (pyStrip c s).toList =
      ((s.toList.dropWhile (· = c)).reverse.dropWhile (· = c)).reverse := rfl

/-- `s.strip(c)` never ends with `c`. -/
theorem pyStrip_getLast?_ne (c : Char) (s : String) :
    (pyStrip c s).toList.getLast? ≠ some c := by
  rw [toList_pyStrip, List.getLast?_reverse]
  intro h
  have hp := head?_dropWhile_eq_some _ _ _ h
  simp at hp

/-- `s.strip(c)` never starts with `c`. -/
theorem pyStrip_head?_ne (c : Char) (s : String) :
    (pyStrip c s).toList.head? ≠ some c := by
  rw [toList_pyStrip, List.head?_reverse]
  by_cases hm : (s.toList.dropWhile (· = c)).reverse.dropWhile (· = c) = []
  · rw [hm]
    simp
  · rw [getLast?_dropWhile_of_ne_nil _ _ hm, List.getLast?_reverse]
    intro h
    have hp := head?_dropWhile_eq_some _ _ _ h
    simp at hp

theorem pySplitChar_ne_nil (c : Char) (l : List Char) : pySplitChar c l ≠ [] := by
  induction l with
  | nil => simp [pySplitChar]
  | cons x xs ih =>
    simp only [pySplitChar]
    by_cases h : x = c
    · simp [h]
    · rw [if_neg h]
      cases hr : pySplitChar c xs with
      | nil => exact absurd hr ih
      | cons r rs => simp

/-- `s.split(c)` yields one more piece than there are occurrences of `c`. -/
theorem length_pySplitChar (c : Char) (l : List Char) :
    (pySplitChar c l).length = l.count c + 1 := by
  induction l with
  | nil => simp [pySplitChar]
  | cons x xs ih =>
    simp only [pySplitChar]
    by_cases h : x = c
    · rw [if_pos h]
      simp only [List.length_cons, ih, List.count_cons]
      simp [h]
    · rw [if_neg h]
      cases hr : pySplitChar c xs with
      | nil => exact absurd hr (pySplitChar_ne_nil c xs)
      | cons r rs =>
        rw [hr] at ih
        simp only [List.length_cons] at ih ⊢
        rw [List.count_cons]
        have hbeq : (x == c) = false := by simpa using h
        simp [hbeq]
        omega

theorem length_pySplit (c : Char) (s : String) :
    (pySplit c s).length = s.toList.count c + 1 := by
  simp [pySplit, length_pySplitChar]

/-- On four 200 responses, `load_instance_metadata` succeeds and returns the
four bodies, the coordinator URL stripped of slashes. -/
theorem load_instance_metadata_of_valid (rs : MetadataResponses)
    (h : validMetadata rs) :
    load_instance_metadata rs =
      .ok ⟨pyStrip '/' rs.jenkins_url.body, some rs.name.body,
           some rs.jnlp_credentials.body, some rs.jenkins_label.body⟩ := by
  obtain ⟨h1, h2, h3, h4⟩ := h
  simp [load_instance_metadata, load_instance_metadata_item, h1, h2, h3, h4,
    Bind.bind, Except.bind]

theorem startFinish_createPost (env : StartEnv) (acts : List Action) :
    Action.createPost ∈ (startFinish env acts).2 ↔ Action.createPost ∈ acts := by
  unfold startFinish
  split <;> simp

theorem createPost_not_mem_jarActions (env : StartEnv) :
    Action.createPost ∉ jarActions env := by
  unfold jarActions
  split <;> simp

theorem createPost_mem_do_registration (env : RegistrationEnv) :
    Action.createPost ∈ (_do_registration env).2 := by
  unfold _do_registration
  split <;> simp

/-! ### Claims -/

/-- C2 counterexample: a 302 metadata response is not 200, yet
`load_instance_metadata_item` does not raise — `raise_for_status` is a no-op
on a 3xx status and the function falls through and returns `None`. -/
theorem c2_counterexample :
    (302 ≠ 200) ∧ load_instance_metadata_item ⟨302, "body"⟩ = .ok none := by
  decide

/-- C2 (amended): a metadata attribute fetch returns the decoded body on
status 200 and raises for every 4xx/5xx status, but on any other non-200
status (1xx, non-200 2xx, 3xx) it returns a null value instead of raising. -/
theorem c2_item_fetch_behavior (r : Response) :
    load_instance_metadata_item r =
      if r.status_code = 200 then .ok (some r.body)
      else if isErrorStatus r.status_code then .error (.httpError r.status_code)
      else .ok none := by
  unfold load_instance_metadata_item raise_for_status
  by_cases h200 : r.status_code = 200
  · simp [h200]
  · by_cases herr : isErrorStatus r.status_code <;> simp [h200, herr]

/-- C3 counterexample: a create response of 200 is not 302, yet
`_do_registration` raises nothing and still posts the configuration update
(`configPost` is in the trace and the call returns normally). -/
theorem c3_counterexample :
    (200 ≠ 302) ∧
      _do_registration ⟨200, 200⟩ = (.ok (), [.createPost, .configPost]) := by
  decide

/-- C3 (amended): in the registration flow a create status of 302 proceeds to
the configuration update; a 4xx/5xx create status raises the corresponding
error before the configuration update is attempted; any other non-302 status
only logs the failure and still proceeds to the configuration update. -/
theorem c3_create_status_behavior (env : RegistrationEnv) :
    (env.create_status = 302 → Action.configPost ∈ (_do_registration env).2) ∧
    (isErrorStatus env.create_status = true →
      _do_registration env = (.error (.httpError env.create_status), [Action.createPost])) ∧
    (isErrorStatus env.create_status = false →
      Action.configPost ∈ (_do_registration env).2) := by
  unfold _do_registration raise_for_status
  by_cases h302 : env.create_status = 302
  · simp [h302, isErrorStatus]
  · by_cases herr : isErrorStatus env.create_status <;> simp [h302, herr]

/-- C3 witness: with a 302 create response the configuration update is
posted; with a 404 create response the call raises the 404 error and the
trace stops at the create post. -/
theorem c3_create_status_witness :
    Action.configPost ∈ (_do_registration ⟨302, 200⟩).2 ∧
      _do_registration ⟨404, 200⟩ = (.error (.httpError 404), [Action.createPost]) :=
  ⟨(c3_create_status_behavior ⟨302, 200⟩).1 rfl,
   (c3_create_status_behavior ⟨404, 200⟩).2.1 (by decide)⟩

/-- C4: on a 200 node-list response, the existence check returns `true` iff
some entry's `displayName` is an exact (case-sensitive) match for the queried
name, and it returns `false` on an empty entry list. -/
theorem c4_existence_check_iff_match (name : String) (r : NodeListResponse)
    (j : NodeListJson) (h200 : r.status_code = 200) (hj : r.json = some j) :
    (_is_already_registered (some name) r = .ok true ↔
      ∃ c ∈ j.computer.getD [], c.displayName = some name) ∧
    (j.computer.getD [] = [] → _is_already_registered (some name) r = .ok false) := by
  have hrun : _is_already_registered (some name) r =
      .ok ((j.computer.getD []).any (fun c => c.displayName == some name)) := by
    simp [_is_already_registered, h200, hj, Bind.bind, Except.bind, Pure.pure, Except.pure]
  constructor
  · rw [hrun]
    simp [List.any_eq_true]
  · intro hemp
    rw [hrun, hemp]
    simp

/-- C4 witness: a list containing `agent-7` matches the query `agent-7`; the
empty list yields `false`. -/
theorem c4_existence_check_witness :
    _is_already_registered (some "agent-7") ⟨200, some ⟨some [⟨some "agent-7"⟩]⟩⟩ = .ok true ∧
    _is_already_registered (some "agent-7") ⟨200, some ⟨some []⟩⟩ = .ok false := by
  constructor
  · exact (c4_existence_check_iff_match "agent-7" _ ⟨some [⟨some "agent-7"⟩]⟩ rfl rfl).1.mpr
      ⟨⟨some "agent-7"⟩, by simp, rfl⟩
  · exact (c4_existence_check_iff_match "agent-7" _ ⟨some []⟩ rfl rfl).2 rfl

/-- C6: on a fully valid (all-200) metadata load, the stored coordinator URL
never ends in a slash — it is the raw value stripped of slashes — and in
particular a raw `http://ci.example.com/` is stored as
`http://ci.example.com`. -/
theorem c6_no_trailing_slash (rs : MetadataResponses) (h : validMetadata rs) :
    ∃ data, load_instance_metadata rs = .ok data ∧
      data.jenkins_url = pyStrip '/' rs.jenkins_url.body ∧
      data.jenkins_url.toList.getLast? ≠ some '/' ∧
      (rs.jenkins_url.body = "http://ci.example.com/" →
        data.jenkins_url = "http://ci.example.com") := by
  refine ⟨_, load_instance_metadata_of_valid rs h, rfl, pyStrip_getLast?_ne '/' _, ?_⟩
  intro hb
  rw [hb]
  show pyStrip '/' "http://ci.example.com/" = "http://ci.example.com"
  decide

/-- C6 witness: a concrete all-200 metadata load whose raw coordinator URL
carries a trailing slash yields the URL without it. -/
theorem c6_no_trailing_slash_witness :
    ∃ data,
      load_instance_metadata
        ⟨⟨200, "agent-7"⟩, ⟨200, "http://ci.example.com/"⟩, ⟨200, "u:p"⟩, ⟨200, "linux"⟩⟩ =
        .ok data ∧ data.jenkins_url = "http://ci.example.com" := by
  obtain ⟨data, hload, -, -, hp⟩ := c6_no_trailing_slash
    ⟨⟨200, "agent-7"⟩, ⟨200, "http://ci.example.com/"⟩, ⟨200, "u:p"⟩, ⟨200, "linux"⟩⟩
    (by decide)
  exact ⟨data, hload, hp rfl⟩

/-- C9: `strip('/')` removes leading slashes as well: on a fully valid
metadata load the stored coordinator URL neither starts nor ends with a
slash, and a raw `//ci.example.com/` is stored as `ci.example.com`. -/
theorem c9_no_leading_or_trailing_slash (rs : MetadataResponses) (h : validMetadata rs) :
    ∃ data, load_instance_metadata rs = .ok data ∧
      data.jenkins_url.toList.head? ≠ some '/' ∧
      data.jenkins_url.toList.getLast? ≠ some '/' ∧
      (rs.jenkins_url.body = "//ci.example.com/" →
        data.jenkins_url = "ci.example.com") := by
  refine ⟨_, load_instance_metadata_of_valid rs h,
    pyStrip_head?_ne '/' _, pyStrip_getLast?_ne '/' _, ?_⟩
  intro hb
  rw [hb]
  show pyStrip '/' "//ci.example.com/" = "ci.example.com"
  decide

/-- C9 witness: a concrete all-200 metadata load whose raw coordinator URL
has both leading and trailing slashes yields the bare host. -/
theorem c9_strip_witness :
    ∃ data,
      load_instance_metadata
        ⟨⟨200, "agent-7"⟩, ⟨200, "//ci.example.com/"⟩, ⟨200, "u:p"⟩, ⟨200, "linux"⟩⟩ =
        .ok data ∧ data.jenkins_url = "ci.example.com" := by
  obtain ⟨data, hload, -, -, hp⟩ := c9_no_leading_or_trailing_slash
    ⟨⟨200, "agent-7"⟩, ⟨200, "//ci.example.com/"⟩, ⟨200, "u:p"⟩, ⟨200, "linux"⟩⟩
    (by decide)
  exact ⟨data, hload, hp rfl⟩

/-- C7: when the delete request answers 302, deregistration returns normally
and the trace is exactly the delete post — no existence re-check or any other
request follows. -/
theorem c7_dereg_302_no_followup (credentials : String) (name : Option String)
    (env : DeregEnv) (sess : Session)
    (hs : get_credentialed_session credentials = .ok sess)
    (h302 : env.delete_status = 302) :
    _deregister_with_jenkins_master credentials name env = (.ok (), [Action.deletePost]) := by
  unfold _deregister_with_jenkins_master
  rw [hs, h302]
  simp

/-- C7 witness: a concrete 302 deregistration. -/
theorem c7_dereg_302_witness :
    _deregister_with_jenkins_master "u:p" (some "agent-7") ⟨302, ⟨200, some ⟨some []⟩⟩⟩ =
      (.ok (), [Action.deletePost]) :=
  c7_dereg_302_no_followup "u:p" (some "agent-7") _ ⟨"u", "p"⟩ (by decide) rfl

/-- C8: on a 200 secret-fetch response whose XML has no `application-desc`
child containing an `argument` child, `_get_jnlp_secret` raises the
structural (`AttributeError`) error and never returns any value. -/
theorem c8_missing_xml_path_raises (r : JnlpResponse) (root : XmlElem)
    (h200 : r.status_code = 200) (hx : r.xml = some root)
    (hmiss : (root.find "application-desc").bind (fun ad => ad.find "argument") = none) :
    _get_jnlp_secret r = .error .attributeError ∧
    ∀ s, _get_jnlp_secret r ≠ .ok s := by
  have h1 : _get_jnlp_secret r = .error .attributeError := by
    unfold _get_jnlp_secret
    cases hfind : root.find "application-desc" with
    | none => simp [h200, hx, hfind, Bind.bind, Except.bind, Pure.pure, Except.pure]
    | some ad =>
      rw [hfind] at hmiss
      simp only [Option.some_bind] at hmiss
      simp [h200, hx, hfind, hmiss, Bind.bind, Except.bind, Pure.pure, Except.pure]
  refine ⟨h1, fun s hs => ?_⟩
  rw [h1] at hs
  exact Except.noConfusion hs

/-- C8 witness: a 200 response whose document has no `application-desc`
child raises the structural error. -/
theorem c8_missing_xml_path_witness :
    _get_jnlp_secret ⟨200, some (.elem "jnlp" none [.elem "information" none []])⟩ =
      .error .attributeError :=
  (c8_missing_xml_path_raises _ (.elem "jnlp" none [.elem "information" none []])
    rfl rfl rfl).1

/-- C1 counterexample: the delete request answers 200 (not 302), the re-check
still reports the node present, yet the call returns normally —
`raise_for_status` on the original 200 raises nothing, so no error
corresponding to the delete status is raised. -/
theorem c1_counterexample :
    (200 ≠ 302) ∧
    _is_already_registered (some "agent-7") ⟨200, some ⟨some [⟨some "agent-7"⟩]⟩⟩ = .ok true ∧
    _deregister_with_jenkins_master "u:p" (some "agent-7")
        ⟨200, ⟨200, some ⟨some [⟨some "agent-7"⟩]⟩⟩⟩ =
      (.ok (), [.deletePost, .nodeListGet]) := by
  decide

/-- C1 (amended): on a non-302 delete response exactly one existence
re-check is performed (the trace is the delete post followed by one node-list
request); if the re-check reports the node absent the call returns normally;
if it reports the node still present, `raise_for_status` is applied to the
original delete status — a 4xx/5xx status raises the corresponding error,
while any other non-302 status returns normally without raising. -/
theorem c1_dereg_recheck_behavior (credentials : String) (name : Option String)
    (env : DeregEnv) (sess : Session)
    (hs : get_credentialed_session credentials = .ok sess)
    (h302 : env.delete_status ≠ 302) :
    (_deregister_with_jenkins_master credentials name env).2 =
      [Action.deletePost, Action.nodeListGet] ∧
    (_is_already_registered name env.recheck = .ok false →
      (_deregister_with_jenkins_master credentials name env).1 = .ok ()) ∧
    (_is_already_registered name env.recheck = .ok true →
      (_deregister_with_jenkins_master credentials name env).1 =
        if isErrorStatus env.delete_status then .error (.httpError env.delete_status)
        else .ok ()) := by
  unfold _deregister_with_jenkins_master
  rw [hs, if_neg h302]
  cases hreg : _is_already_registered name env.recheck with
  | error e => simp [hreg]
  | ok b => cases b <;> simp [hreg, raise_for_status]

/-- C1 witness: with delete status 404, a re-check showing the node absent
returns normally, and a re-check still listing the node raises the 404. -/
theorem c1_dereg_recheck_witness :
    (_deregister_with_jenkins_master "u:p" (some "agent-7")
        ⟨404, ⟨200, some ⟨some []⟩⟩⟩).1 = .ok () ∧
    (_deregister_with_jenkins_master "u:p" (some "agent-7")
        ⟨404, ⟨200, some ⟨some [⟨some "agent-7"⟩]⟩⟩⟩).1 = .error (.httpError 404) := by
  constructor
  · exact (c1_dereg_recheck_behavior "u:p" (some "agent-7")
      ⟨404, ⟨200, some ⟨some []⟩⟩⟩ ⟨"u", "p"⟩ (by decide) (by decide)).2.1 (by decide)
  · have h := (c1_dereg_recheck_behavior "u:p" (some "agent-7")
      ⟨404, ⟨200, some ⟨some [⟨some "agent-7"⟩]⟩⟩⟩ ⟨"u", "p"⟩
      (by decide) (by decide)).2.2 (by decide)
    rw [h]
    decide

/-- C5: in the start flow the create request appears in the trace exactly
when the run reached the existence check and the check returned `false`; in
particular whenever the check returned `true` no create request is made. -/
theorem c5_create_iff_not_registered (env : StartEnv) :
    (Action.createPost ∈ (handle_start env).2 ↔
      ∃ data creds sess,
        load_instance_metadata env.metadata = .ok data ∧
        data.jnlp_credentials = some creds ∧
        get_credentialed_session creds = .ok sess ∧
        _is_already_registered data.name env.node_list = .ok false) ∧
    (∀ data, load_instance_metadata env.metadata = .ok data →
      _is_already_registered data.name env.node_list = .ok true →
      Action.createPost ∉ (handle_start env).2) := by
  unfold handle_start
  cases hload : load_instance_metadata env.metadata with
  | error e => simp
  | ok data =>
    cases hcred : data.jnlp_credentials with
    | none => simp [hcred, createPost_not_mem_jarActions env]
    | some creds =>
      cases hsess : get_credentialed_session creds with
      | error e => simp [hcred, hsess, createPost_not_mem_jarActions env]
      | ok sess =>
        cases hcheck : _is_already_registered data.name env.node_list with
        | error e => simp [hcred, hsess, hcheck, createPost_not_mem_jarActions env]
        | ok b =>
          cases b with
          | true =>
            simp [hcred, hsess, hcheck, startFinish_createPost,
              createPost_not_mem_jarActions env]
          | false =>
            have hmem := createPost_mem_do_registration env.registration
            cases hreg : _do_registration env.registration with
            | mk res regActs =>
              rw [hreg] at hmem
              cases res with
              | error e =>
                simp only []
                simp [hcred, hsess, hcheck, hmem]
              | ok u =>
                cases u
                simp [hcred, hsess, hcheck, startFinish_createPost, hmem]

/-- C5 witness: with the node already listed the start trace contains no
create post; with an empty node list it does. -/
theorem c5_create_witness :
    Action.createPost ∉
      (handle_start
        ⟨⟨⟨200, "agent-7"⟩, ⟨200, "http://ci.example.com"⟩, ⟨200, "u:p"⟩, ⟨200, "linux"⟩⟩,
         true, ⟨200, some ⟨some [⟨some "agent-7"⟩]⟩⟩, ⟨302, 200⟩, ⟨200, none⟩⟩).2 ∧
    Action.createPost ∈
      (handle_start
        ⟨⟨⟨200, "agent-7"⟩, ⟨200, "http://ci.example.com"⟩, ⟨200, "u:p"⟩, ⟨200, "linux"⟩⟩,
         true, ⟨200, some ⟨some []⟩⟩, ⟨302, 200⟩, ⟨200, none⟩⟩).2 := by
  constructor
  · exact (c5_create_iff_not_registered _).2
      ⟨"http://ci.example.com", some "agent-7", some "u:p", some "linux"⟩
      (by decide) (by decide)
  · exact (c5_create_iff_not_registered _).1.mpr
      ⟨⟨"http://ci.example.com", some "agent-7", some "u:p", some "linux"⟩, "u:p",
        ⟨"u", "p"⟩, by decide, rfl, by decide, by decide⟩

/-- C10: building the authenticated session succeeds exactly when the
credential string contains exactly one colon; otherwise `split` raises a
`ValueError`, and e.g. a deregistration with such credentials fails before
any coordinator request is issued (its trace is empty). -/
theorem c10_credentials_split (credentials : String) :
    ((∃ s, get_credentialed_session credentials = .ok s) ↔
      credentials.toList.count ':' = 1) ∧
    (credentials.toList.count ':' ≠ 1 →
      ∀ name env, _deregister_with_jenkins_master credentials name env =
        (.error .valueError, [])) := by
  have hlen : (pySplit ':' credentials).length = credentials.toList.count ':' + 1 :=
    length_pySplit ':' credentials
  rcases hsp : pySplit ':' credentials with _ | ⟨a, _ | ⟨b, _ | ⟨d, ds⟩⟩⟩ <;>
    rw [hsp] at hlen <;> simp only [List.length_nil, List.length_cons] at hlen
  · exact absurd hlen (by omega)
  · constructor
    · constructor
      · rintro ⟨s, hs⟩
        simp [get_credentialed_session, hsp] at hs
      · intro hc
        omega
    · intro _ name env
      unfold _deregister_with_jenkins_master
      simp [get_credentialed_session, hsp]
  · constructor
    · constructor
      · intro _
        omega
      · intro _
        exact ⟨⟨a, b⟩, by simp [get_credentialed_session, hsp]⟩
    · intro hc
      exact absurd (by omega) hc
  · constructor
    · constructor
      · rintro ⟨s, hs⟩
        simp [get_credentialed_session, hsp] at hs
      · intro hc
        omega
    · intro _ name env
      unfold _deregister_with_jenkins_master
      simp [get_credentialed_session, hsp]

/-- C10 witness: `u:p` (one colon) builds a session; `u:p:q` (two colons)
raises `ValueError` and a deregistration with it issues no request. -/
theorem c10_credentials_split_witness :
    ("u:p".toList.count ':' = 1 ∧ ∃ s, get_credentialed_session "u:p" = .ok s) ∧
    ("u:p:q".toList.count ':' ≠ 1 ∧
      _deregister_with_jenkins_master "u:p:q" (some "agent-7") ⟨302, ⟨200, some ⟨some []⟩⟩⟩ =
        (.error .valueError, [])) := by
  constructor
  · exact ⟨by decide, (c10_credentials_split "u:p").1.mpr (by decide)⟩
  · exact ⟨by decide, (c10_credentials_split "u:p:q").2 (by decide) _ _⟩

end JenkinsAgent
